import Mathlib

/-!
# Verification of the coordinate-aware typo detection and annotation pipeline

Shallow embedding of the core pipeline of the student-composition corrector:

* `src/web/js/typo-detector.js` — the `TypoDetector` class: correction
  tables, `cleanWord`, `detectTypos`, `getTypoStats`;
* `src/web/js/app.js` — `processOCRResults` (the OCR-result normalizer),
  `drawAnnotations` and `drawLegend` (the annotation layout engine);
* `src/unnamed/part_002` — `retryWithTraditionalChinese` (the document-level
  retry-selection rule).

Conventions of the embedding:

* JavaScript numbers that hold (possibly fractional) confidences are
  modelled as `Rat`; pixel coordinates as `Int`.
* A JavaScript field that may be `undefined` (or fail `Array.isArray`) is
  modelled as an `Option`; an expression that would throw a `TypeError`
  (property access or method call on `undefined`) is modelled by the
  `JsResult.typeError` constructor.
* JavaScript strings are modelled as `String`; `\w` in the regexes of the
  source is the ASCII class `[A-Za-z0-9_]`, and `toLowerCase` only affects
  `A`-`Z` on every input that occurs in this development, so the ASCII
  `Char.toLower` is used.
* Object-literal tables indexed by computed keys are modelled as ordered
  association lists (`Object.entries` iterates in insertion order).
-/

namespace OCRApp

/-! ## Data model -/

/-- A bounding box as produced by `processOCRResults` (app.js:201-208):
the four corners plus the cached `width = x1 - x0` and `height = y1 - y0`. -/
structure BBox where
  x0 : Int
  y0 : Int
  x1 : Int
  y1 : Int
  width : Int
  height : Int
deriving DecidableEq, Repr

/-- A normalized word record (app.js:198-209).  `bbox` is an `Option`
because the detector guards `wordData.bbox ? wordData.bbox.x0 : 0`
(typo-detector.js:130), i.e. the field may be absent. -/
structure Word where
  text : String
  confidence : Rat
  bbox : Option BBox
deriving DecidableEq, Repr

/-- The canonical OCR result (app.js:211-216).  `words` is an `Option`:
`none` models a `words` field that is absent or fails `Array.isArray`
(the guard of typo-detector.js:75). -/
structure OCRResult where
  text : String
  words : Option (List Word)
  confidence : Rat
  word_count : Nat
deriving DecidableEq, Repr

/-- The confidence tier strings `'high'` / `'medium'` / `'low'` of
typo-detector.js. -/
inductive Tier where
  | high
  | medium
  | low
deriving DecidableEq, Repr

/-- A typo candidate as pushed at typo-detector.js:124-133. -/
structure Typo where
  original : String
  correction : String
  confidence : Tier
  bbox : Option BBox
  position : Int × Int
deriving DecidableEq, Repr

/-- The statistics record of `getTypoStats` (typo-detector.js:143-152). -/
structure TypoStats where
  total : Nat
  high_confidence : Nat
  medium_confidence : Nat
  low_confidence : Nat
deriving DecidableEq, Repr

/-! ## Character-level helpers of the detector -/

/-- The ASCII class `\w` = `[A-Za-z0-9_]` used by the regex
`/[^\w]/g` in `cleanWord` (typo-detector.js:66). -/
def isWordChar (c : Char) : Bool :=
  c.isAlpha || c.isDigit || c == '_'

/-- `String.prototype.toLowerCase`, restricted to its ASCII action
(the only case-mapped characters that occur in this development). -/
def toLowerStr (s : String) : String :=
  String.mk (s.data.map Char.toLower)

/-- `cleanWord(word)` = `word.toLowerCase().replace(/[^\w]/g, '')`
(typo-detector.js:65-67). -/
def cleanWord (word : String) : String :=
  String.mk ((toLowerStr word).data.filter isWordChar)

/-- Whether the first character list is a prefix of the second. -/
def startsWith : List Char → List Char → Bool
  | [], _ => true
  | _ :: _, [] => false
  | a :: as, b :: bs => a == b && startsWith as bs

/-- Whether the first character list occurs contiguously in the second. -/
def containsSub (pat : List Char) : List Char → Bool
  | [] => startsWith pat []
  | b :: bs => startsWith pat (b :: bs) || containsSub pat bs

/-- `String.prototype.includes`: `s` contains `pat` as a contiguous
substring. -/
def strIncludes (s pat : String) : Bool :=
  containsSub pat.data s.data

/-- One character class of the suspicious-pattern regex: `|`. -/
def isPipeChar (c : Char) : Bool := c == '|'

/-- One character class of the suspicious-pattern regex: `[1l]` with the
`/i` flag, hence `1`, `l`, `L`. -/
def isOneEll (c : Char) : Bool := c == '1' || c == 'l' || c == 'L'

/-- One character class of the suspicious-pattern regex: `[0o]` with the
`/i` flag, hence `0`, `o`, `O`. -/
def isZeroOh (c : Char) : Bool := c == '0' || c == 'o' || c == 'O'

/-- Whether a character list contains two consecutive characters of the
class `p` — the `{2,}` part of the suspicious-pattern regex. -/
def hasPair (p : Char → Bool) : List Char → Bool
  | [] => false
  | [_] => false
  | a :: b :: rest => (p a && p b) || hasPair p (b :: rest)

/-- The test `suspiciousPatterns.test(originalWord)` for
`/[|]{1,}|[1l]{2,}|[0o]{2,}/i` (typo-detector.js:109-110): at least one
pipe, or two consecutive `1`/`l`, or two consecutive `0`/`o`,
case-insensitively. -/
def suspiciousPatterns (s : String) : Bool :=
  s.data.any isPipeChar || hasPair isOneEll s.data || hasPair isZeroOh s.data

/-- The character substitution of the repair step
`.replace(/[|]/g,'l').replace(/1/g,'l').replace(/0/g,'o')`
(typo-detector.js:113-115). -/
def repairChar (c : Char) : Char :=
  if c == '|' then 'l' else if c == '1' then 'l' else if c == '0' then 'o' else c

/-- The repaired string `suggested` of typo-detector.js:113-115. -/
def repairWord (s : String) : String :=
  String.mk (s.data.map repairChar)

/-! ## The correction tables (typo-detector.js:9-59)

These are the literal initializer values of the `TypoDetector`
constructor, in source order.  The keys/values of
`chineseTypoCorrectionsInit` are copied byte-for-byte from the checked-in
file (whose CJK literals are mojibake-encoded). -/

/-- `this.typoCorrections` (typo-detector.js:9-30), in insertion order. -/
def typoCorrectionsInit : List (String × String) :=
  [ ("sumer", "summer")
  , ("familly", "family")
  , ("wich", "which")
  , ("whether", "weather")
  , ("beutiful", "beautiful")
  , ("enjoied", "enjoyed")
  , ("swiming", "swimming")
  , ("favrite", "favorite")
  , ("bulding", "building")
  , ("resturant", "restaurant")
  , ("delisious", "delicious")
  , ("cant", "can't")
  , ("wont", "won't")
  , ("dont", "don't")
  , ("teh", "the")
  , ("recieve", "receive")
  , ("seperate", "separate")
  , ("occured", "occurred")
  , ("begining", "beginning")
  , ("accomodate", "accommodate") ]

/-- `this.chineseTypoCorrections` (typo-detector.js:33-42), in insertion
order, with the literal characters of the checked-in file. -/
def chineseTypoCorrectionsInit : List (String × String) :=
  [ ("ÁöÑ", "Âú∞")
  , ("Âú®", "ÂÜç")
  , ("‰ªñ", "Â•π")
  , ("ÈÇ£", "Âì™")
  , ("ÂÅö", "‰Ωú")
  , ("ÂÉè", "Ë±°")
  , ("‰ª•", "Â∑≤")
  , ("ÁªÉ", "ÁÇº") ]

/-- `this.commonWords` (typo-detector.js:45-59). -/
def commonWordsInit : List String :=
  [ "the", "and", "or", "but", "in", "on", "at", "to", "for", "of", "with"
  , "by", "from", "up", "about", "into", "through", "during", "before"
  , "after", "above", "below", "between", "among", "under", "over"
  , "a", "an", "is", "was", "are", "were", "be", "been", "being"
  , "have", "has", "had", "do", "does", "did", "will", "would", "could"
  , "should", "may", "might", "must", "can", "cannot", "this", "that"
  , "these", "those", "i", "you", "he", "she", "it", "we", "they"
  , "me", "him", "her", "us", "them", "my", "your", "his", "our", "their"
  , "all", "any", "both", "each", "few", "more", "most", "other", "some"
  , "such", "no", "nor", "not", "only", "own", "same", "so", "than", "too"
  , "very", "just", "now", "here", "there", "when", "where", "why", "how"
  , "what", "which", "who", "whom", "whose", "if", "because", "as", "until"
  , "while", "although", "though", "since", "unless", "whether", "wherever" ]

/-! ## The TypoDetector class -/

/-- The instance state of the `TypoDetector` class: the three tables set
by the constructor and never written afterwards. -/
structure TypoDetector where
  typoCorrections : List (String × String)
  chineseTypoCorrections : List (String × String)
  commonWords : List String
deriving DecidableEq, Repr

/-- `new TypoDetector()` (typo-detector.js:7-60). -/
def TypoDetector.new : TypoDetector :=
  { typoCorrections := typoCorrectionsInit
  , chineseTypoCorrections := chineseTypoCorrectionsInit
  , commonWords := commonWordsInit }

/-- The substring-match loop
`for (const [typo, fix] of Object.entries(this.typoCorrections))`
(typo-detector.js:95-101): the first entry whose key occurs in the
cleaned word or in the lower-cased raw word wins. -/
def findSubstrMatch (cleanedWord lowered : String) :
    List (String × String) → Option String
  | [] => none
  | (typo, fix) :: rest =>
    if strIncludes cleanedWord typo || strIncludes lowered typo then some fix
    else findSubstrMatch cleanedWord lowered rest

/-- The per-word classification of the `detectTypos` loop body
(typo-detector.js:85-121): the final values of the mutable locals
`correction` / `confidence`, returned as `some (correction, confidence)`
exactly when `correction` ends up non-null (the push guard of line 123).

Branch order as in the source: exact dictionary lookup (line 89),
substring dictionary loop (line 95), then the unknown-word heuristic
(lines 105-120), whose `confidence = 'medium'` assignment is observable
only when the repaired string differs from the original (line 116). -/
def TypoDetector.classifyWord (d : TypoDetector) (originalWord : String) :
    Option (String × Tier) :=
  let cleanedWord := cleanWord originalWord
  match d.typoCorrections.lookup cleanedWord with
  | some fix => some (fix, Tier.high)
  | none =>
    match findSubstrMatch cleanedWord (toLowerStr originalWord) d.typoCorrections with
    | some fix => some (fix, Tier.high)
    | none =>
      if d.commonWords.contains cleanedWord then none
      else if 4 < cleanedWord.length then
        if suspiciousPatterns originalWord then
          let suggested := repairWord originalWord
          if suggested = originalWord then none
          else some (toLowerStr suggested, Tier.medium)
        else none
      else none

/-- One iteration of the `detectTypos` word loop (typo-detector.js:79-135):
skip words whose cleaned form is shorter than 2 characters (line 83),
otherwise classify and, when a correction was found, build the candidate
record of lines 124-133 (with the `wordData.bbox ? ... : 0` guards for
`position`). -/
def TypoDetector.detectWord (d : TypoDetector) (wordData : Word) : Option Typo :=
  let originalWord := wordData.text
  let cleanedWord := cleanWord originalWord
  if cleanedWord.length < 2 then none
  else
    match d.classifyWord originalWord with
    | none => none
    | some (fix, tier) =>
      some { original := originalWord
             correction := fix
             confidence := tier
             bbox := wordData.bbox
             position := (match wordData.bbox with
                          | some b => b.x0
                          | none => 0,
                          match wordData.bbox with
                          | some b => b.y0
                          | none => 0) }

/-- `detectTypos(ocrResults)` (typo-detector.js:72-138).  The guard
`if (!ocrResults.words || !Array.isArray(ocrResults.words)) return typos`
is the `none` branch. -/
def TypoDetector.detectTypos (d : TypoDetector) (ocrResults : OCRResult) : List Typo :=
  match ocrResults.words with
  | none => []
  | some ws => ws.filterMap d.detectWord

/-- The `detectTypos` method in state-passing form: the method body
contains no assignment to `this`, so the receiver is returned unchanged
alongside the result. -/
def TypoDetector.detectTyposM (d : TypoDetector) (ocrResults : OCRResult) :
    List Typo × TypoDetector :=
  (d.detectTypos ocrResults, d)

/-- `getTypoStats(typos)` (typo-detector.js:143-152). -/
def TypoDetector.getTypoStats (_d : TypoDetector) (typos : List Typo) : TypoStats :=
  { total := typos.length
  , high_confidence := (typos.filter fun t => decide (t.confidence = Tier.high)).length
  , medium_confidence := (typos.filter fun t => decide (t.confidence = Tier.medium)).length
  , low_confidence := (typos.filter fun t => decide (t.confidence = Tier.low)).length }

/-! ## The OCR result normalizer (app.js:196-217) -/

/-- Outcome of a JavaScript computation: either a value, or a thrown
`TypeError` (property access / method call on `undefined`). -/
inductive JsResult (α : Type) where
  | ok : α → JsResult α
  | typeError : JsResult α
deriving DecidableEq, Repr

/-- A raw Tesseract.js bounding box (`word.bbox` in app.js:201-205). -/
structure RawBBox where
  x0 : Int
  y0 : Int
  x1 : Int
  y1 : Int
deriving DecidableEq, Repr

/-- A raw Tesseract.js word record consumed by `processOCRResults`. -/
structure RawWord where
  text : String
  confidence : Rat
  bbox : RawBBox
deriving DecidableEq, Repr

/-- The `data` object handed to `processOCRResults`: full text, word list
(`none` when the field is missing), aggregate confidence in 0-100. -/
structure TesseractData where
  text : String
  words : Option (List RawWord)
  confidence : Rat
deriving DecidableEq, Repr

/-- `processOCRResults(tesseractData)` (app.js:196-217).  The body starts
with `tesseractData.words.map(...)`, so a missing word list throws a
`TypeError` (there is no guard in this function).  Word and aggregate
confidences are divided by 100; `width`/`height` are derived from the
corners; `word_count` is the length of the mapped list. -/
def processOCRResults (tesseractData : TesseractData) : JsResult OCRResult :=
  match tesseractData.words with
  | none => JsResult.typeError
  | some rawWords =>
    let words : List Word := rawWords.map fun word =>
      { text := word.text
        confidence := word.confidence / 100
        bbox := some { x0 := word.bbox.x0
                       y0 := word.bbox.y0
                       x1 := word.bbox.x1
                       y1 := word.bbox.y1
                       width := word.bbox.x1 - word.bbox.x0
                       height := word.bbox.y1 - word.bbox.y0 } }
    JsResult.ok { text := tesseractData.text
                  words := some words
                  confidence := tesseractData.confidence / 100
                  word_count := words.length }

/-! ## The document-level retry-selection rule (part_002:318-324) -/

/-- The selection step at the end of `retryWithTraditionalChinese`
(part_002 line 319):
`if (retryResults.confidence > this.ocrResults.confidence + 10)` the retry
result replaces the original, else the original is kept.  Both
confidences were produced by `processOCRResults`, i.e. normalized to the
0-1 range, while the margin literal is `10`. -/
def retrySelect (ocrResults retryResults : OCRResult) : OCRResult :=
  if ocrResults.confidence + 10 < retryResults.confidence then retryResults
  else ocrResults

/-! ## The annotation layout engine (app.js:281-354) -/

/-- The kind of a draw instruction: the typo branch (app.js:300-315), the
plain-outline branch (app.js:316-323), or the legend (app.js:330-354). -/
inductive InstrKind where
  | typoHighlight
  | plainOutline
  | legend
deriving DecidableEq, Repr

/-- An axis-aligned rectangle `(x, y, w, h)` as passed to `strokeRect` /
`fillRect`. -/
structure Rect where
  x : Int
  y : Int
  w : Int
  h : Int
deriving DecidableEq, Repr

/-- One draw instruction of the layout engine: its kind, its rectangle,
its stroke/fill color, and the optional correction label drawn above the
box. -/
structure Instr where
  kind : InstrKind
  rect : Rect
  color : String
  label : Option String
deriving DecidableEq, Repr

/-- The lookup of the `typoMap` built at app.js:290-293:
`typos.forEach(typo => typoMap.set(typo.original, typo))`, so for a given
text the LAST typo with that `original` is the one stored. -/
def typoMapGet (typos : List Typo) (text : String) : Option Typo :=
  (typos.filter fun t => t.original == text).getLast?

/-- The loop body of `ocrResults.words.forEach` (app.js:296-324): the
instruction emitted for one word.  `none` models the `TypeError` thrown
when `word.bbox` is `undefined` (both branches read `bbox.x0`
unguarded). -/
def wordInstr (typos : List Typo) (word : Word) : Option Instr :=
  match word.bbox with
  | none => none
  | some bbox =>
    match typoMapGet typos word.text with
    | some typo =>
      some { kind := InstrKind.typoHighlight
             rect := { x := bbox.x0, y := bbox.y0, w := bbox.width, h := bbox.height }
             color := if typo.confidence = Tier.high then "#dc3545" else "#ffc107"
             label := some ("→ " ++ typo.correction) }
    | none =>
      some { kind := InstrKind.plainOutline
             rect := { x := bbox.x0, y := bbox.y0, w := bbox.width, h := bbox.height }
             color := "#28a745"
             label := none }

/-- The word loop of `drawAnnotations`, emitting one instruction per word
in order and propagating a `TypeError` from any iteration. -/
def wordInstrs (typos : List Typo) : List Word → Option (List Instr)
  | [] => some []
  | w :: ws =>
    match wordInstr typos w, wordInstrs typos ws with
    | some i, some is => some (i :: is)
    | _, _ => none

/-- `drawLegend(ctx, canvasWidth, canvasHeight)` (app.js:330-354) as a
single legend instruction: the panel rectangle is
`fillRect(canvasWidth - 200, 20, 180, 80)`; the `canvasHeight` parameter
is accepted but unused by the source.  The three static rows are fixed
text, summarized by the fixed label. -/
def drawLegend (canvasWidth _canvasHeight : Int) : Instr :=
  { kind := InstrKind.legend
    rect := { x := canvasWidth - 200, y := 20, w := 180, h := 80 }
    color := "rgba(255, 255, 255, 0.9)"
    label := some "Legend:" }

/-- `drawAnnotations(canvas, ctx, img, ocrResults, typos)`
(app.js:281-328) as its sequence of annotation draw instructions: one
instruction per word of `ocrResults.words` (app.js:296-324), then exactly
one legend instruction (app.js:327).  `typeError` models the exception
thrown when `ocrResults.words` is missing or a word lacks its `bbox`. -/
def drawAnnotations (ocrResults : OCRResult) (typos : List Typo)
    (canvasWidth canvasHeight : Int) : JsResult (List Instr) :=
  match ocrResults.words with
  | none => JsResult.typeError
  | some ws =>
    match wordInstrs typos ws with
    | none => JsResult.typeError
    | some instrs => JsResult.ok (instrs ++ [drawLegend canvasWidth canvasHeight])

/-! ## Concrete fixtures used by witnesses and counterexamples -/

/-- A raw engine result with an empty word list and the given aggregate
confidence (on the engine's 0-100 scale). -/
def rawDoc (c : Rat) : TesseractData :=
  { text := "doc", words := some [], confidence := c }

/-- The normalization of `rawDoc c`: confidence rescaled to 0-1. -/
def docConf (c : Rat) : OCRResult :=
  { text := "doc", words := some [], confidence := c / 100, word_count := 0 }

/-- The word `"hello"`: reaches the unknown-word heuristic (length 5 key,
not in the allow-list, suspicious because of the consecutive `ll`), and
its substitution repair is identical to the original. -/
def helloWord : Word := { text := "hello", confidence := 1, bbox := none }

/-- A one-word result containing `helloWord`. -/
def helloResult : OCRResult :=
  { text := "hello", words := some [helloWord], confidence := 1, word_count := 1 }

/-- A word whose text is the first key of the CJK confusable table. -/
def cjkWord : Word := { text := "ÁöÑ", confidence := 1, bbox := none }

/-- A one-word result containing `cjkWord`. -/
def cjkResult : OCRResult :=
  { text := "ÁöÑ", words := some [cjkWord], confidence := 1, word_count := 1 }

/-- The dictionary-typo word `"teh"`, with a bounding box. -/
def tehWord : Word :=
  { text := "teh", confidence := 1
  , bbox := some { x0 := 10, y0 := 20, x1 := 30, y1 := 40, width := 20, height := 20 } }

/-- A one-word result containing `tehWord`. -/
def tehResult : OCRResult :=
  { text := "teh", words := some [tehWord], confidence := 1, word_count := 1 }

/-- A result with an empty (but present) word list. -/
def emptyResult : OCRResult :=
  { text := "", words := some [], confidence := 1, word_count := 0 }

/-- A result whose `words` field is absent (or not an array). -/
def noWordsResult : OCRResult :=
  { text := "", words := none, confidence := 1, word_count := 0 }

/-- The instruction list `drawAnnotations` produces for `tehResult` with
no typo candidates on a 640x300 canvas: one plain outline, then the
legend. -/
def tehInstrList : List Instr :=
  [ { kind := InstrKind.plainOutline
    , rect := { x := 10, y := 20, w := 20, h := 20 }
    , color := "#28a745"
    , label := none }
  , drawLegend 640 300 ]

/-- The candidate the classifier emits for `tehWord`. -/
def tehTypo : Typo :=
  { original := "teh", correction := "the", confidence := Tier.high
  , bbox := tehWord.bbox, position := (10, 20) }

/-! ## Helper lemmas -/

/-- A successful association-list lookup yields a member of the list. -/
theorem lookup_mem {β : Type} (k : String) (v : β) (tbl : List (String × β))
    (h : tbl.lookup k = some v) : (k, v) ∈ tbl := by
  induction tbl with
  | nil => simp [List.lookup] at h
  | cons p rest ih =>
    obtain ⟨k', v'⟩ := p
    rw [List.lookup] at h
    cases hbeq : k == k' with
    | false =>
      rw [hbeq] at h
      exact List.mem_cons_of_mem _ (ih h)
    | true =>
      rw [hbeq] at h
      obtain rfl : v' = v := by injection h
      obtain rfl : k = k' := eq_of_beq hbeq
      exact List.mem_cons_self _ _

/-- Words whose cleaned form is shorter than 2 characters are skipped by
the detector loop (typo-detector.js:83). -/
theorem detectWord_short (d : TypoDetector) (w : Word)
    (h : (cleanWord w.text).length < 2) : d.detectWord w = none := by
  simp only [TypoDetector.detectWord]
  rw [if_pos h]

/-- Every classification the loop body produces carries tier `high` or
`medium`: the `'low'` initializer of the `confidence` local is never the
value at a push site. -/
theorem classify_tier (d : TypoDetector) (ow fix : String) (tier : Tier)
    (h : d.classifyWord ow = some (fix, tier)) :
    tier = Tier.high ∨ tier = Tier.medium := by
  simp only [TypoDetector.classifyWord] at h
  split at h
  · left
    injection h with h'
    exact (congrArg Prod.snd h').symm
  · split at h
    · left
      injection h with h'
      exact (congrArg Prod.snd h').symm
    · split at h
      · exact absurd h (by simp)
      · split at h
        · split at h
          · split at h
            · exact absurd h (by simp)
            · right
              injection h with h'
              exact (congrArg Prod.snd h').symm
          · exact absurd h (by simp)
        · exact absurd h (by simp)

/-- Every emitted candidate's tier comes from `classifyWord`, hence is
`high` or `medium`. -/
theorem detectWord_tier (d : TypoDetector) (w : Word) (t : Typo)
    (h : d.detectWord w = some t) :
    t.confidence = Tier.high ∨ t.confidence = Tier.medium := by
  simp only [TypoDetector.detectWord] at h
  split at h
  · exact absurd h (by simp)
  · split at h
    · exact absurd h (by simp)
    · rename_i fix tier heq
      obtain rfl : _ = t := by injection h
      exact classify_tier d w.text fix tier heq

/-- A word with a bounding box always yields an instruction. -/
theorem wordInstr_isSome (typos : List Typo) (w : Word)
    (h : (w.bbox).isSome = true) : (wordInstr typos w).isSome = true := by
  obtain ⟨b, hb⟩ := Option.isSome_iff_exists.mp h
  unfold wordInstr
  rw [hb]
  cases typoMapGet typos w.text <;> rfl

/-- When every word has a bounding box, the word loop succeeds and emits
exactly one instruction per word. -/
theorem wordInstrs_all_some (typos : List Typo) (ws : List Word)
    (h : ∀ w ∈ ws, (w.bbox).isSome = true) :
    ∃ is, wordInstrs typos ws = some is ∧ is.length = ws.length := by
  induction ws with
  | nil => exact ⟨[], rfl, rfl⟩
  | cons w rest ih =>
    obtain ⟨i, hi⟩ := Option.isSome_iff_exists.mp
      (wordInstr_isSome typos w (h w (List.mem_cons_self _ _)))
    obtain ⟨is, his, hlen⟩ := ih (fun x hx => h x (List.mem_cons_of_mem _ hx))
    refine ⟨i :: is, ?_, by simp [hlen]⟩
    unfold wordInstrs
    rw [hi, his]

/-- Every successful `drawAnnotations` run ends in the legend instruction
for its canvas. -/
theorem drawAnnotations_ok_last (o : OCRResult) (typos : List Typo)
    (cw ch : Int) (l : List Instr)
    (h : drawAnnotations o typos cw ch = JsResult.ok l) :
    l.getLast? = some (drawLegend cw ch) := by
  unfold drawAnnotations at h
  split at h
  · exact JsResult.noConfusion h
  · split at h
    · exact JsResult.noConfusion h
    · obtain rfl : _ = l := by injection h
      exact List.getLast?_concat _

/-! ## Claims -/

/-- Claim C1 (evaluated at the failing input).  The claim says the retry
result replaces the original exactly when its aggregate confidence
exceeds the original's by more than 10 percentage points, so an original
at 15% against a retry at 30% must pick the retry.  The code normalizes
both confidences to the 0-1 range in `processOCRResults` but compares
them against the literal margin `10`, so the retry also loses at 30%
(0.30 > 0.15 + 10 is false): the original is kept at 23% (as the claim
says) AND at 30% (contradicting the claim). -/
theorem retry_margin_unit_mismatch :
    processOCRResults (rawDoc 15) = JsResult.ok (docConf 15) ∧
    processOCRResults (rawDoc 23) = JsResult.ok (docConf 23) ∧
    processOCRResults (rawDoc 30) = JsResult.ok (docConf 30) ∧
    retrySelect (docConf 15) (docConf 23) = docConf 15 ∧
    retrySelect (docConf 15) (docConf 30) = docConf 15 := by
  refine ⟨rfl, rfl, rfl, ?_, ?_⟩ <;>
    · unfold retrySelect docConf
      rw [if_neg (by norm_num)]

/-- Claim C2, counterexample.  `"hello"` reaches the unknown-word
heuristic (cleaned key of length 5, not in the allow-list, suspicious via
the consecutive `ll`), its substitution repair is identical to the
original — and the classifier emits NO candidate at all, not a
tier-medium candidate without a suggestion as the claim states. -/
theorem heuristic_identical_repair_cex :
    4 < (cleanWord "hello").length ∧
    TypoDetector.new.commonWords.contains (cleanWord "hello") = false ∧
    suspiciousPatterns "hello" = true ∧
    repairWord "hello" = "hello" ∧
    TypoDetector.new.detectTypos helloResult = [] := by
  refine ⟨by decide, by decide, by decide, by decide, by decide⟩

/-- Claim C2, amended.  For every word that reaches the unknown-word
heuristic (no exact or substring dictionary match, key not in the
allow-list, key longer than 4 characters, suspicious glyph pattern), if
the substitution repair produces a string identical to the original then
the classifier emits NO candidate for that word: the word is silently
treated as correct rather than flagged at tier medium. -/
theorem heuristic_identical_repair_no_candidate (d : TypoDetector) (w : Word)
    (hex : d.typoCorrections.lookup (cleanWord w.text) = none)
    (hsub : findSubstrMatch (cleanWord w.text) (toLowerStr w.text) d.typoCorrections = none)
    (hcomm : d.commonWords.contains (cleanWord w.text) = false)
    (hlen : 4 < (cleanWord w.text).length)
    (hsus : suspiciousPatterns w.text = true)
    (hrep : repairWord w.text = w.text) :
    d.detectWord w = none := by
  have h2 : ¬ (cleanWord w.text).length < 2 := by omega
  simp only [TypoDetector.detectWord, TypoDetector.classifyWord]
  rw [if_neg h2, hex, hsub, if_neg (by rw [hcomm]; exact Bool.false_ne_true),
    if_pos hlen, if_pos hsus, if_pos hrep]

/-- Claim C2, witness for the amended theorem at the concrete word
`"hello"`. -/
theorem heuristic_identical_repair_witness :
    repairWord helloWord.text = helloWord.text ∧
    TypoDetector.new.detectWord helloWord = none :=
  ⟨by decide,
   heuristic_identical_repair_no_candidate TypoDetector.new helloWord
     (by decide) (by decide) (by decide) (by decide) (by decide) (by decide)⟩

/-- Claim C3, counterexample.  For an engine output lacking a word list,
`processOCRResults` does not return an empty-word `OCRResult`: the
unguarded `tesseractData.words.map(...)` throws a `TypeError`. -/
theorem normalizer_missing_words_cex :
    processOCRResults { text := "scanned page", words := none, confidence := 92 }
      = JsResult.typeError := rfl

/-- Claim C3, amended.  For every engine output that lacks a word list,
the normalizer throws (a `TypeError` from mapping over the missing list)
rather than producing an `OCRResult` with an empty word sequence; the
graceful degradation to "no typo detection possible" happens only later,
in the classifier's own guard. -/
theorem normalizer_missing_words_throws (tesseractData : TesseractData)
    (h : tesseractData.words = none) :
    processOCRResults tesseractData = JsResult.typeError := by
  unfold processOCRResults
  rw [h]

/-- Claim C3, witness for the amended theorem. -/
theorem normalizer_missing_words_witness :
    ({ text := "x", words := none, confidence := 50 } : TesseractData).words = none ∧
    processOCRResults { text := "x", words := none, confidence := 50 }
      = JsResult.typeError :=
  ⟨rfl, normalizer_missing_words_throws _ rfl⟩

/-- Claim C4, counterexample.  The first key of the CJK confusable table
is present in `chineseTypoCorrections`, yet the classifier emits no
candidate for a word with exactly that text — the exact dictionary lookup
consults only the English table, and cleaning strips the non-ASCII
characters so the word is skipped as too short. -/
theorem cjk_table_never_consulted_cex :
    TypoDetector.new.chineseTypoCorrections.lookup "ÁöÑ" = some "Âú∞" ∧
    TypoDetector.new.detectTypos cjkResult = [] := by
  refine ⟨by decide, by decide⟩

/-- Claim C4, amended.  For every word whose text is a key of the CJK
confusable-pair correction table, the classifier emits NO candidate: the
table is never consulted by `detectTypos`, and `cleanWord` strips every
character of such a key, so the cleaned key is empty and the word is
skipped by the length guard. -/
theorem cjk_key_never_flagged (w : Word)
    (h : (TypoDetector.new.chineseTypoCorrections.lookup w.text).isSome = true) :
    TypoDetector.new.detectWord w = none := by
  obtain ⟨v, hv⟩ := Option.isSome_iff_exists.mp h
  have hm := lookup_mem _ _ _ hv
  have hkeys : ∀ p ∈ TypoDetector.new.chineseTypoCorrections,
      (cleanWord p.1).length < 2 := by decide
  have hshort := hkeys _ hm
  exact detectWord_short _ _ hshort

/-- Claim C4, witness for the amended theorem at the first CJK table
key. -/
theorem cjk_key_never_flagged_witness :
    (TypoDetector.new.chineseTypoCorrections.lookup cjkWord.text).isSome = true ∧
    TypoDetector.new.detectWord cjkWord = none :=
  ⟨by decide, cjk_key_never_flagged cjkWord (by decide)⟩

/-- Claim C5.  For every `OCRResult` whose word list is present (of any
length, including zero) and whose words each carry a bounding box, the
layout operation emits exactly `len(words) + 1` instructions: one per
word, then one legend. -/
theorem layout_completeness (ocrResults : OCRResult) (typos : List Typo)
    (canvasWidth canvasHeight : Int) (ws : List Word)
    (hw : ocrResults.words = some ws)
    (hb : ∀ w ∈ ws, (w.bbox).isSome = true) :
    ∃ l, drawAnnotations ocrResults typos canvasWidth canvasHeight = JsResult.ok l ∧
      l.length = ws.length + 1 := by
  obtain ⟨is, his, hlen⟩ := wordInstrs_all_some typos ws hb
  refine ⟨is ++ [drawLegend canvasWidth canvasHeight], ?_, by simp [hlen]⟩
  simp only [drawAnnotations, hw, his]

/-- Claim C5, witness: a one-word result yields exactly 2 instructions,
and an empty-word result yields exactly 1. -/
theorem layout_completeness_witness :
    (tehResult.words = some [tehWord] ∧
      ∃ l, drawAnnotations tehResult [] 640 300 = JsResult.ok l ∧ l.length = 2) ∧
    (emptyResult.words = some [] ∧
      ∃ l, drawAnnotations emptyResult [] 640 480 = JsResult.ok l ∧ l.length = 1) :=
  ⟨⟨rfl, layout_completeness tehResult [] 640 300 [tehWord] rfl (by decide)⟩,
   ⟨rfl, layout_completeness emptyResult [] 640 480 [] rfl (by decide)⟩⟩

/-- Claim C6.  For any two successful layout runs with the same
`canvasWidth`, the final (legend) instruction is identical — independent
of the words, the typo candidates, and the canvas height — and its
rectangle is the fixed 180x80 panel at `(canvasWidth - 200, 20)`, i.e.
anchored to the top-right corner with a 20-unit margin, a function of
`canvasWidth` alone. -/
theorem legend_invariance (o₁ o₂ : OCRResult) (t₁ t₂ : List Typo)
    (cw ch₁ ch₂ : Int) (l₁ l₂ : List Instr)
    (h₁ : drawAnnotations o₁ t₁ cw ch₁ = JsResult.ok l₁)
    (h₂ : drawAnnotations o₂ t₂ cw ch₂ = JsResult.ok l₂) :
    l₁.getLast? = l₂.getLast? ∧
    l₁.getLast? = some (drawLegend cw ch₁) ∧
    (drawLegend cw ch₁).rect = { x := cw - 200, y := 20, w := 180, h := 80 } ∧
    (drawLegend cw ch₁).rect.x + (drawLegend cw ch₁).rect.w = cw - 20 ∧
    (drawLegend cw ch₁).rect.y = 20 := by
  have e₁ := drawAnnotations_ok_last _ _ _ _ _ h₁
  have e₂ := drawAnnotations_ok_last _ _ _ _ _ h₂
  refine ⟨by rw [e₁, e₂]; rfl, e₁, rfl, ?_, rfl⟩
  show cw - 200 + 180 = cw - 20
  omega

/-- Claim C6, witness: an empty-word run on a 640x480 canvas and a
one-word run on a 640x300 canvas share the identical legend
instruction. -/
theorem legend_invariance_witness :
    ([drawLegend 640 480] : List Instr).getLast? = tehInstrList.getLast? ∧
    ([drawLegend 640 480] : List Instr).getLast? = some (drawLegend 640 480) ∧
    (drawLegend 640 480).rect = { x := 640 - 200, y := 20, w := 180, h := 80 } ∧
    (drawLegend 640 480).rect.x + (drawLegend 640 480).rect.w = 640 - 20 ∧
    (drawLegend 640 480).rect.y = 20 :=
  legend_invariance emptyResult tehResult [] [] 640 480 300
    [drawLegend 640 480] tehInstrList rfl rfl

/-- Claim C7.  For every word whose cleaned key exactly equals a key of
the English correction table, the classifier emits a candidate with tier
`high` whose correction is the table's value for that key. -/
theorem exact_match_tier_high (w : Word) (fix : String)
    (h : TypoDetector.new.typoCorrections.lookup (cleanWord w.text) = some fix) :
    ∃ t, TypoDetector.new.detectWord w = some t ∧
      t.original = w.text ∧ t.correction = fix ∧ t.confidence = Tier.high := by
  have hm := lookup_mem _ _ _ h
  have hkeys : ∀ p ∈ TypoDetector.new.typoCorrections, 2 ≤ (p.1).length := by decide
  have hlen : 2 ≤ (cleanWord w.text).length := hkeys _ hm
  refine ⟨{ original := w.text, correction := fix, confidence := Tier.high
          , bbox := w.bbox
          , position := (match w.bbox with | some b => b.x0 | none => 0,
                         match w.bbox with | some b => b.y0 | none => 0) },
          ?_, rfl, rfl, rfl⟩
  simp only [TypoDetector.detectWord, TypoDetector.classifyWord]
  rw [if_neg (by omega), h]

/-- Claim C7, witness: the input word `"teh"` yields the candidate
`{original := "teh", correction := "the", tier := high}`. -/
theorem exact_match_tier_high_witness :
    TypoDetector.new.typoCorrections.lookup (cleanWord tehWord.text) = some "the" ∧
    ∃ t, TypoDetector.new.detectWord tehWord = some t ∧
      t.original = "teh" ∧ t.correction = "the" ∧ t.confidence = Tier.high :=
  ⟨by decide, exact_match_tier_high tehWord "the" (by decide)⟩

/-- Claim C8.  `detectTypos` in state-passing form mutates no state: the
receiver after a call is the receiver before it, and a second call on the
post-state yields exactly the first call's candidate list (the function
is pure, so repeated calls agree element for element). -/
theorem classify_idempotent (d : TypoDetector) (o : OCRResult) :
    (d.detectTyposM o).2 = d ∧
    ((d.detectTyposM o).2.detectTyposM o).1 = (d.detectTyposM o).1 :=
  ⟨rfl, rfl⟩

/-- Claim C9.  Every candidate the classifier emits has tier `high` or
`medium` — never `low` — and consequently `getTypoStats` reports a
`low_confidence` count of 0 on every classifier output. -/
theorem no_low_tier_emitted (d : TypoDetector) (o : OCRResult) :
    (∀ t ∈ d.detectTypos o, t.confidence = Tier.high ∨ t.confidence = Tier.medium) ∧
    (d.getTypoStats (d.detectTypos o)).low_confidence = 0 := by
  have hmem : ∀ t ∈ d.detectTypos o,
      t.confidence = Tier.high ∨ t.confidence = Tier.medium := by
    intro t ht
    unfold TypoDetector.detectTypos at ht
    rcases hw : o.words with _ | ws
    · simp only [hw] at ht
      exact absurd ht (List.not_mem_nil t)
    · simp only [hw] at ht
      obtain ⟨w, hwmem, hdw⟩ := List.mem_filterMap.mp ht
      exact detectWord_tier d w t hdw
  refine ⟨hmem, ?_⟩
  simp only [TypoDetector.getTypoStats]
  rw [List.length_eq_zero, List.filter_eq_nil_iff]
  intro t ht
  rcases hmem t ht with h | h <;> simp [h]

/-- Claim C9, witness at a run that emits a candidate: the `"teh"`
candidate is tier `high`/`medium` and the statistics report no
low-confidence candidates. -/
theorem no_low_tier_emitted_witness :
    (tehTypo ∈ TypoDetector.new.detectTypos tehResult ∧
      (tehTypo.confidence = Tier.high ∨ tehTypo.confidence = Tier.medium)) ∧
    (TypoDetector.new.getTypoStats
      (TypoDetector.new.detectTypos tehResult)).low_confidence = 0 :=
  ⟨⟨by decide,
    (no_low_tier_emitted TypoDetector.new tehResult).1 tehTypo (by decide)⟩,
   (no_low_tier_emitted TypoDetector.new tehResult).2⟩

/-- Claim C10.  If the `OCRResult` given to the classifier has no usable
`words` field (absent, or not an array), `detectTypos` returns the empty
candidate list rather than throwing. -/
theorem detect_missing_words_empty (d : TypoDetector) (o : OCRResult)
    (h : o.words = none) : d.detectTypos o = [] := by
  unfold TypoDetector.detectTypos
  rw [h]

/-- Claim C10, witness. -/
theorem detect_missing_words_witness :
    noWordsResult.words = none ∧
    TypoDetector.new.detectTypos noWordsResult = [] :=
  ⟨rfl, detect_missing_words_empty TypoDetector.new noWordsResult rfl⟩

end OCRApp
